import Mathlib

/-!
Verification of the AI interview platform (`neo4j_testing` package) against its
natural-language specification. The Python sources are shallowly embedded:
pure parsing and scoring code becomes Lean functions over `String`, `List` and
`ℚ` (an exact idealization of Python floats on the decimal literals that occur
here); code that raises and catches exceptions becomes `Option`/`Except`
values; the concurrent audio pipeline and the background-evaluation lifecycle
become explicit step relations on state types. External calls (the language
model, the synthesis websocket) are modelled as parameters carrying the
response text the external service would return, with `none` standing for the
call raising an exception.
-/

/- ## Python string primitives used by the sources -/

/-- Drop whitespace from both ends of a character list. -/
def trimList (cs : List Char) : List Char :=
  ((cs.dropWhile Char.isWhitespace).reverse.dropWhile Char.isWhitespace).reverse

/-- Python `str.strip()` (the sources only ever strip ASCII whitespace). -/
def pyStrip (s : String) : String := String.mk (trimList s.data)

/-- Python `str.lower()` as used on file extensions. -/
def pyLower (s : String) : String := String.mk (s.data.map Char.toLower)

/-- Split a character list at every character satisfying `p`, keeping empty
pieces (the semantics of Python `str.split(sep)` for one-character `sep`). -/
def splitOnPredList (p : Char → Bool) : List Char → List (List Char)
  | [] => [[]]
  | c :: cs =>
    let r := splitOnPredList p cs
    if p c then [] :: r
    else
      match r with
      | [] => [[c]]
      | h :: t => (c :: h) :: t

/-- Python `text.split(sep)` for a one-character separator (the sources only
split on `'\n'` and `'|'`): keeps empty pieces. -/
def pySplitChar (sep : Char) (s : String) : List String :=
  (splitOnPredList (fun c => c == sep) s.data).map String.mk

/-- Python `str.split()` with no argument: split on whitespace runs, dropping
empty pieces. -/
def pySplitWs (s : String) : List String :=
  ((splitOnPredList Char.isWhitespace s.data).map String.mk).filter (fun t => t ≠ "")

/-- Python `sep.join(items)`. -/
def pyJoin (sep : String) : List String → String
  | [] => ""
  | [x] => x
  | x :: xs => x ++ sep ++ pyJoin sep xs

/-- Python `len(text.split())` — the word count used by the analytics stage. -/
def wordCount (s : String) : Nat := (pySplitWs s).length

/-- Python `str.startswith(pre)`. -/
def pyStartsWith (s pre : String) : Bool := pre.data.isPrefixOf s.data

/-- Python `line.split(':', 1)[1]`: everything after the first colon. The
callers only use it on lines that start with `"XXX:"`, so a colon exists. -/
def afterFirstColon (s : String) : String :=
  String.mk ((s.data.dropWhile (fun c => c != ':')).drop 1)

/-- The character set of the sources' `lstrip('1234567890.-) ')` calls
(`question_generator.py` line 141, `evaluation_service.py` line 343). -/
def numberingChars : List Char :=
  ['1', '2', '3', '4', '5', '6', '7', '8', '9', '0', '.', '-', ')', ' ']

/-- Python `q.lstrip('1234567890.-) ')`: drop leading characters of the set. -/
def stripNumbering (s : String) : String :=
  String.mk (s.data.dropWhile (fun c => decide (c ∈ numberingChars)))

/-- The value of a digit string, most significant first. -/
def digitsToNat (l : List Char) : Nat :=
  l.foldl (fun a c => a * 10 + (c.toNat - 48)) 0

/-- Helper for `parsePyFloat`: parse an unsigned decimal literal
(`"15"`, `"1.5"`, `"1."`, `".5"`), `none` on anything else. -/
def parsePyFloatAux (cs : List Char) : Option ℚ :=
  let intPart := cs.takeWhile Char.isDigit
  let rest := cs.dropWhile Char.isDigit
  match rest with
  | [] => if intPart.isEmpty then none else some ((digitsToNat intPart : ℚ))
  | '.' :: frac =>
      if frac.all Char.isDigit ∧ (intPart ≠ [] ∨ frac ≠ []) then
        some ((digitsToNat intPart : ℚ) + (digitsToNat frac : ℚ) / ((10 : ℚ) ^ frac.length))
      else none
  | _ => none

/-- Python `float(s)` on the plain decimal literals this program feeds it:
optional surrounding whitespace, optional sign, digits with at most one dot.
`none` models `float` raising `ValueError`. (Exotic accepted spellings such as
`"inf"`, `"nan"` or exponents are not produced by the prompts modelled here.) -/
def parsePyFloat (s : String) : Option ℚ :=
  match (pyStrip s).data with
  | '-' :: cs => (parsePyFloatAux cs).map (fun q => -q)
  | '+' :: cs => parsePyFloatAux cs
  | cs => parsePyFloatAux cs

/-- Python two-argument `max(a, b)`: `b` when `a < b`, else `a`. -/
def pyMax (a b : ℚ) : ℚ := if a < b then b else a

/-- Python two-argument `min(a, b)`: `b` when `b < a`, else `a`. -/
def pyMin (a b : ℚ) : ℚ := if b < a then b else a

/-- `statistics.mean` : raises `StatisticsError` on an empty list, modelled as
`none`; otherwise the exact arithmetic mean. -/
def mean (l : List ℚ) : Option ℚ :=
  if l = [] then none else some (l.sum / (l.length : ℚ))

/-- Banker's rounding to an integer, as Python `round` does on exact halves. -/
def roundHalfToEven (q : ℚ) : Int :=
  let f := ⌊q⌋
  let r := q - (f : ℚ)
  if r < 1 / 2 then f
  else if 1 / 2 < r then f + 1
  else if f % 2 = 0 then f else f + 1

/-- Python `round(x, 1)` (decimal idealization). -/
def pyRound1 (q : ℚ) : ℚ := ((roundHalfToEven (q * 10) : Int) : ℚ) / 10

/-- Python float `a % b` (floored modulus, sign of the divisor). -/
def pyFloatMod (a b : ℚ) : ℚ := a - b * ((⌊a / b⌋ : Int) : ℚ)

/- ## models/response_models.py and models/request_models.py -/

/-- `QuestionAnalysis` of `models/response_models.py`. -/
structure QuestionAnalysis where
  question_id : Int
  score : ℚ
  feedback : String
  strengths : List String
  improvements : List String
deriving DecidableEq, Repr

/-- `Analytics` of `models/response_models.py`; `consistency_score` is the
nullable field (`Optional[float] = None`). -/
structure Analytics where
  total_duration : String
  average_response_time : ℚ
  speaking_pace : String
  technical_depth : String
  communication_clarity : String
  consistency_score : Option ℚ
deriving DecidableEq, Repr

/-- `InterviewAnswer` of `models/request_models.py` (one Turn). -/
structure InterviewAnswer where
  question_id : Int
  question_text : String
  answer_text : String
  answer_duration : ℚ
deriving DecidableEq, Repr

/-- The dictionary `evaluate_complete_interview` returns (the shape of
`ResultsResponse`). -/
structure FinalResult where
  overall_score : ℚ
  overall_feedback : String
  question_analysis : List QuestionAnalysis
  analytics : Analytics
  recommendations : List String
deriving DecidableEq, Repr

/- ## services/evaluation_service.py -/

/-- Python `[s.strip() for s in text.split('|') if s.strip()]`
(`evaluation_service.py` lines 121 and 125): the pipe-separated items of a
`STRENGTHS:`/`IMPROVEMENTS:` payload, stripped, blanks dropped, order kept. -/
def pipeItems (t : String) : List String :=
  ((pySplitChar '|' t).map (fun s => pyStrip s)).filter (fun s => s ≠ "")

/-- The parse state `_evaluate_single_answer` starts from
(`evaluation_service.py` lines 102-105). -/
def initAnalysis (qid : Int) : QuestionAnalysis :=
  { question_id := qid
    score := 5
    feedback := "Unable to generate detailed feedback."
    strengths := []
    improvements := [] }

/-- One iteration of the line loop of `_evaluate_single_answer`
(`evaluation_service.py` lines 108-125): strip the line, dispatch on its
prefix; a `SCORE:` line whose number parses is clamped to `[0,10]`, a parse
failure leaves the previous score (`except: pass`); `STRENGTHS:` /
`IMPROVEMENTS:` payloads that are blank or the literal `"None"` leave the
previous value. -/
def procLine (st : QuestionAnalysis) (rawLine : String) : QuestionAnalysis :=
  let line := pyStrip rawLine
  if pyStartsWith line "SCORE:" then
    match parsePyFloat (afterFirstColon line) with
    | some v => { st with score := pyMax 0 (pyMin 10 v) }
    | none => st
  else if pyStartsWith line "FEEDBACK:" then
    { st with feedback := pyStrip (afterFirstColon line) }
  else if pyStartsWith line "STRENGTHS:" then
    let strengths_text := pyStrip (afterFirstColon line)
    if strengths_text ≠ "" ∧ strengths_text ≠ "None" then
      { st with strengths := pipeItems strengths_text }
    else st
  else if pyStartsWith line "IMPROVEMENTS:" then
    let improvements_text := pyStrip (afterFirstColon line)
    if improvements_text ≠ "" ∧ improvements_text ≠ "None" then
      { st with improvements := pipeItems improvements_text }
    else st
  else st

/-- The degraded analysis of the `except` branch of `_evaluate_single_answer`
(`evaluation_service.py` lines 135-143). -/
def degradedAnalysis (qid : Int) : QuestionAnalysis :=
  { question_id := qid
    score := 5
    feedback := "Unable to evaluate this response due to a technical issue."
    strengths := []
    improvements := ["Technical evaluation error occurred"] }

/-- `EvaluationService._evaluate_single_answer`: `resp` is the text the
scoring backend returned (`none` = the `llm.invoke` call raised). The
response is stripped, split on newlines and folded through the line loop. -/
def evaluate_single_answer (qid : Int) (resp : Option String) : QuestionAnalysis :=
  match resp with
  | none => degradedAnalysis qid
  | some r => (pySplitChar '\n' (pyStrip r)).foldl procLine (initAnalysis qid)

/-- The zeroed/`"Unknown"` analytics of the `except` branch of
`_calculate_analytics` (`evaluation_service.py` lines 205-211). -/
def fallbackAnalytics : Analytics :=
  { total_duration := "Unable to calculate"
    average_response_time := 0
    speaking_pace := "Unknown"
    technical_depth := "Unknown"
    communication_clarity := "Unknown"
    consistency_score := none }

/-- `EvaluationService._calculate_analytics` (`evaluation_service.py` lines
145-211). The two `statistics.mean` calls are the only raising operations in
the `try` block (both raise exactly on an empty list, which also covers the
division by `len(qa_pairs)`), so the `except` branch is entered iff one of
them gets an empty list. -/
def calculate_analytics (qa_pairs : List InterviewAnswer) (scores : List ℚ) : Analytics :=
  match mean (qa_pairs.map (fun qa => qa.answer_duration)) with
  | none => fallbackAnalytics
  | some avg_response_time =>
    let total_duration := (qa_pairs.map (fun qa => qa.answer_duration)).sum
    let words_per_answer := qa_pairs.filterMap (fun qa =>
      if 0 < qa.answer_duration then
        some (((wordCount qa.answer_text : ℚ) / qa.answer_duration) * 60)
      else none)
    let avg_wpm := (mean words_per_answer).getD 120
    let speaking_pace :=
      if avg_wpm < 100 then "Slow" else if 180 < avg_wpm then "Fast" else "Normal"
    match mean scores with
    | none => fallbackAnalytics
    | some avg_score =>
      let technical_depth :=
        if 8 ≤ avg_score then "High" else if 6 ≤ avg_score then "Medium" else "Low"
      let total_words := (qa_pairs.map (fun qa => wordCount qa.answer_text)).sum
      let avg_words_per_answer := (total_words : ℚ) / (qa_pairs.length : ℚ)
      let communication_clarity :=
        if 50 ≤ avg_words_per_answer ∧ 7 ≤ avg_score then "Excellent"
        else if 30 ≤ avg_words_per_answer ∧ 6 ≤ avg_score then "Good"
        else if 20 ≤ avg_words_per_answer then "Fair"
        else "Needs Improvement"
      let minutes : Int := ⌊total_duration / 60⌋
      let seconds : Int := ⌊pyFloatMod total_duration 60⌋
      { total_duration := toString minutes ++ " minutes " ++ toString seconds ++ " seconds"
        average_response_time := pyRound1 avg_response_time
        speaking_pace := speaking_pace
        technical_depth := technical_depth
        communication_clarity := communication_clarity
        consistency_score := none }

/-- `EvaluationService._analyze_consistency` (`evaluation_service.py` lines
213-247): fewer than 2 turns short-circuits to 10.0 without calling the
backend; otherwise the first whitespace token of the response is parsed as a
float and clamped, any failure (request or parse) yielding 7.0. -/
def analyze_consistency (qa_pairs : List InterviewAnswer) (resp : Option String) : ℚ :=
  if qa_pairs.length < 2 then 10
  else
    match resp with
    | none => 7
    | some r =>
      match (pySplitWs (pyStrip r)).head? with
      | none => 7
      | some tok =>
        match parsePyFloat tok with
        | some v => pyMax 0 (pyMin 10 v)
        | none => 7

/-- `EvaluationService._calculate_overall_score` (`evaluation_service.py`
lines 249-277). `statistics.mean` raising on an empty score list is the only
exception the `try` block can produce, and the `except` branch then returns
5.0 (the list is empty). The consistency modifier is guarded by Python
truthiness (`if hasattr(...) and analytics.consistency_score:`), so a `None`
or `0.0` consistency score skips the modifier entirely. -/
def calculate_overall_score (individual_scores : List ℚ) (analytics : Analytics) : ℚ :=
  match mean individual_scores with
  | none => 5
  | some base_score =>
    let modifiers1 : ℚ :=
      if analytics.communication_clarity = "Excellent" then 1 / 2
      else if analytics.communication_clarity = "Good" then 1 / 5
      else if analytics.communication_clarity = "Needs Improvement" then -(3 / 10)
      else 0
    let modifiers2 : ℚ :=
      match analytics.consistency_score with
      | none => 0
      | some c =>
        if c = 0 then 0
        else if 8 ≤ c then 3 / 10
        else if c ≤ 5 then -(1 / 5)
        else 0
    pyMax 0 (pyMin 10 (base_score + (modifiers1 + modifiers2)))

/-- The static feedback of the `except` branch of
`_generate_overall_feedback` (`evaluation_service.py` line 305). -/
def overallFeedbackFallback : String :=
  "Thank you for completing the interview. Your responses demonstrated good engagement with the questions and relevant experience for the role."

/-- `EvaluationService._generate_overall_feedback`: `statistics.mean(scores)`
is evaluated before the backend request, so an empty score list yields the
static fallback without any request; a failed request does too. -/
def generate_overall_feedback (scores : List ℚ) (resp : Option String) : String :=
  match mean scores with
  | none => overallFeedbackFallback
  | some _ =>
    match resp with
    | none => overallFeedbackFallback
    | some r => pyStrip r

/-- Python `[r.strip().lstrip('1234567890.-) ') for r in response.split('\n')
if r.strip()]` — the line-wise parse shared by the question fallback
(`question_generator.py` lines 140-144) and the recommendations parse
(`evaluation_service.py` lines 342-346). -/
def parseLinewise (response : String) : List String :=
  ((pySplitChar '\n' response).filter (fun q => pyStrip q ≠ "")).map
    (fun q => stripNumbering (pyStrip q))

/-- `EvaluationService._generate_recommendations` (`evaluation_service.py`
lines 307-356): the improvement-frequency table only feeds the prompt text;
the returned value is the line-parsed response truncated to 5, or the static
3-item fallback when the request raises. -/
def generate_recommendations (role : String) (resp : Option String) : List String :=
  match resp with
  | none =>
      ["Continue developing your " ++ pyLower role ++ " skills through hands-on projects",
       "Practice explaining technical concepts clearly and concisely",
       "Review fundamental concepts relevant to your target role"]
  | some r => (parseLinewise (pyStrip r)).take 5

/-- The responses of the scoring backend during one
`evaluate_complete_interview` run: one optional text per per-turn request
(indexed by turn position), plus one each for the consistency, feedback and
recommendations requests. `none` models the request raising. -/
structure EvalBackend where
  single : Nat → Option String
  consistency : Option String
  feedback : Option String
  recommendations : Option String

/-- `EvaluationService.evaluate_complete_interview` (`evaluation_service.py`
lines 16-75). Every sub-stage absorbs its own exceptions, so the outer
`try`/`except` never fires and the function is total. Timestamps and the
`session_id` argument only feed log lines and prompts. -/
def evaluate_complete_interview (be : EvalBackend) (qa_pairs : List InterviewAnswer)
    (role : String) : FinalResult :=
  let question_analyses :=
    ((List.range qa_pairs.length).zip qa_pairs).map
      (fun p => evaluate_single_answer p.2.question_id (be.single p.1))
  let individual_scores := question_analyses.map (fun a => a.score)
  let analytics0 := calculate_analytics qa_pairs individual_scores
  let analytics :=
    { analytics0 with consistency_score := some (analyze_consistency qa_pairs be.consistency) }
  let overall_score := calculate_overall_score individual_scores analytics
  { overall_score := pyRound1 overall_score
    overall_feedback := generate_overall_feedback individual_scores be.feedback
    question_analysis := question_analyses
    analytics := analytics
    recommendations := generate_recommendations role be.recommendations }

/- ## services/question_generator.py -/

/-- The responses of the generation backend during one `generate_questions`
run: `structured` is the parsed result of the structured chain (`none` = the
chain or its output parser raised), `fallbackResponse` the raw text of the
unstructured fallback request (`none` = that request raised too). -/
structure QGBackend where
  structured : Option (List String)
  fallbackResponse : Option String

/-- `QuestionGenerator._get_generic_questions` (`question_generator.py` lines
161-193): the static per-role question bank, with the generic default for a
role outside the table. -/
def get_generic_questions (role : String) : List String :=
  if role = "SDE" then
    ["Tell me about a challenging software development project you've worked on.",
     "How do you approach debugging complex technical issues?",
     "Describe your experience with software design patterns and architecture.",
     "How do you ensure code quality and maintainability in your projects?",
     "What's your approach to learning new technologies and frameworks?"]
  else if role = "Data Scientist" then
    ["Describe a data science project where you had to work with messy or incomplete data.",
     "How do you approach feature selection and engineering in your models?",
     "Tell me about a time when you had to explain complex analytical findings to non-technical stakeholders.",
     "What's your process for evaluating and validating machine learning models?",
     "How do you stay current with new developments in data science and machine learning?"]
  else if role = "Product Manager" then
    ["Describe how you prioritize features when building a product roadmap.",
     "Tell me about a time when you had to make a difficult product decision with limited data.",
     "How do you gather and incorporate user feedback into product development?",
     "Describe your approach to working with cross-functional teams.",
     "How do you measure product success and define key performance indicators?"]
  else
    ["Tell me about your professional background.",
     "What interests you about this role?",
     "Describe a challenging project you've worked on.",
     "How do you handle difficult situations at work?",
     "What are your career goals?"]

/-- `QuestionGenerator._generate_fallback_questions` (`question_generator.py`
lines 125-159): on a backend failure, the static bank; otherwise the
line-parsed response truncated to 5 and, when shorter, padded from the static
bank (`questions.extend(generic_questions[len(questions):])`). -/
def generate_fallback_questions (role : String) (resp : Option String) : List String :=
  match resp with
  | none => get_generic_questions role
  | some r =>
    let questions := (parseLinewise (pyStrip r)).take 5
    let questions :=
      if questions.length < 5 then
        questions ++ (get_generic_questions role).drop questions.length
      else questions
    questions.take 5

/-- The chunk-dedup of `generate_questions` (`question_generator.py` lines
67-73): keep the first occurrence of each chunk, preserving order. -/
def dedupKeepFirst (l : List String) : List String :=
  l.foldl (fun acc c => if c ∈ acc then acc else acc ++ [c]) []

/-- `retrieved_context` of `generate_questions` (`question_generator.py` line
76): the first five deduplicated chunks joined by blank lines. -/
def build_retrieved_context (relevant_chunks : List String) : String :=
  pyJoin "\n\n" ((dedupKeepFirst relevant_chunks).take 5)

/-- `QuestionGenerator.generate_questions` (`question_generator.py` lines
39-123). `relevant_chunks` stands for the passages the vector store returned
for the role queries (per-query `similarity_search` failures are swallowed,
so an arbitrary list covers every vector store). If the joined context is
blank, the fallback runs without the structured tier; a structured success is
returned as-is — the structured path performs no length check; a structured
failure falls back to `_generate_fallback_questions`. -/
def generate_questions (backend : QGBackend) (role : String)
    (relevant_chunks : List String) : List String :=
  let retrieved_context := build_retrieved_context relevant_chunks
  if pyStrip retrieved_context = "" then
    generate_fallback_questions role backend.fallbackResponse
  else
    match backend.structured with
    | some qs => qs
    | none => generate_fallback_questions role backend.fallbackResponse

/- ## main.py: the initialize and submit endpoints -/

/-- A Python exception as the endpoint handlers see it: a
`fastapi.HTTPException` (status, detail) or any other `Exception` with its
message. `HTTPException` subclasses `Exception`, so a bare
`except Exception` clause catches it too. -/
inductive PyExc
  | http (status : Nat) (detail : String)
  | exc (msg : String)
deriving DecidableEq, Repr

/-- Python `str(e)`: Starlette's `HTTPException.__str__` renders
`f"{status_code}: {detail}"`; a plain `Exception` renders its message. -/
def strOfExc : PyExc → String
  | PyExc.http s d => toString s ++ ": " ++ d
  | PyExc.exc m => m

/-- `allowed_extensions` of `initialize_interview` (`main.py` line 70),
in the literal's order. -/
def allowed_extensions : List String := [".pdf", ".docx", ".txt"]

/-- `valid_roles` of `initialize_interview` (`main.py` line 81). -/
def valid_roles : List String := ["SDE", "Data Scientist", "Product Manager"]

/-- Python `pathlib.PurePath(name).suffix`: the last extension of the final
path component — `name[i:]` for the last dot at index `i` when
`0 < i < len(name) - 1`, else the empty string. -/
def pathSuffix (filename : String) : String :=
  let base := (filename.data.reverse.takeWhile (fun c => c != '/')).reverse
  let revTail := base.reverse.takeWhile (fun c => c != '.')
  if revTail.length < base.length ∧ 0 < base.length - revTail.length - 1 ∧ 0 < revTail.length
  then String.mk ('.' :: revTail.reverse)
  else ""

/-- The `try` body of `initialize_interview` (`main.py` lines 68-140):
extension check, then role check, each raising `HTTPException(400, ...)`;
`rest` stands for everything after validation (file save, resume processing,
question/transition generation, session store), whose failures raise plain
exceptions. -/
def initialize_body (role filename : String) (rest : Except String Unit) :
    Except PyExc Unit :=
  let file_extension := pyLower (pathSuffix filename)
  if file_extension ∉ allowed_extensions then
    Except.error (PyExc.http 400
      ("Unsupported file type. Allowed: " ++ pyJoin ", " allowed_extensions))
  else if role ∉ valid_roles then
    Except.error (PyExc.http 400
      ("Invalid role. Must be one of: " ++ pyJoin ", " valid_roles))
  else
    match rest with
    | Except.ok _ => Except.ok ()
    | Except.error msg => Except.error (PyExc.exc msg)

/-- `initialize_interview` as the client sees it (`main.py` lines 59-144).
The handler's only exception clause is `except Exception as e: raise
HTTPException(status_code=500, ...)` — there is no `except HTTPException:
raise` before it (unlike `submit_interview` and `get_results`), so the
validation `HTTPException(400, ...)` raised inside the `try` block is caught
and re-raised as a 500 whose detail embeds `str(e)`. -/
def initialize_interview (role filename : String) (rest : Except String Unit) :
    Except (Nat × String) Unit :=
  match initialize_body role filename rest with
  | Except.ok _ => Except.ok ()
  | Except.error e => Except.error (500, "Internal server error: " ++ strOfExc e)

/- ## main.py submit endpoint + storage/session_manager.py lifecycle -/

/-- The slice of a stored session that `submit_interview` reads
(`session_data["role"]`; the other keys feed logs and the background task's
prompt context only). -/
structure SessionData where
  session_id : String
  role : String
deriving DecidableEq, Repr

/-- An evaluation record as `submit_interview` stores it and
`process_evaluation_background` updates it (`main.py` lines 164-171, 247-251,
257-261). Wall-clock timestamps (`submitted_at`, `completed_at`) are omitted
from the model. -/
structure EvalRecord where
  evaluation_id : String
  session_id : String
  role : String
  interview_data : List InterviewAnswer
  status : String
  results : Option FinalResult
  error : Option String
deriving DecidableEq, Repr

/-- The record `submit_interview` stores before dispatching the background
task (`main.py` lines 164-173): status `"processing"`, no results, no error. -/
def initialEvalRecord (eid sid role : String) (data : List InterviewAnswer) : EvalRecord :=
  { evaluation_id := eid
    session_id := sid
    role := role
    interview_data := data
    status := "processing"
    results := none
    error := none }

/-- `SessionManager.store_*`: writing `{id}.json` overwrites any record with
the same id and leaves the rest of the store untouched. -/
def storePut {β : Type} (store : List (String × β)) (k : String) (v : β) :
    List (String × β) :=
  (k, v) :: store.filter (fun p => p.1 != k)

/-- `SubmitInterviewResponse` of `models/response_models.py`. -/
structure SubmitInterviewResponse where
  evaluation_id : String
  message : String
deriving DecidableEq, Repr

/-- `submit_interview` (`main.py` lines 146-192): look the session up; an
unknown id raises `HTTPException(404, "Session not found")` — re-raised
unchanged by the `except HTTPException: raise` clause — before any
evaluation record is written or any background task queued. Otherwise the
processing record is stored and the background task queued, and the response
carries the fresh evaluation id. Returns (response-or-error, the evaluation
store after the call, whether a background task was queued). -/
def submit_interview (sessions : List (String × SessionData))
    (evals : List (String × EvalRecord)) (session_id new_evaluation_id : String)
    (interview_data : List InterviewAnswer) :
    Except (Nat × String) SubmitInterviewResponse × List (String × EvalRecord) × Bool :=
  match List.lookup session_id sessions with
  | none => (Except.error (404, "Session not found"), evals, false)
  | some session_data =>
    let record := initialEvalRecord new_evaluation_id session_id session_data.role interview_data
    (Except.ok { evaluation_id := new_evaluation_id
                 message := "Interview submitted successfully. Processing results..." },
     storePut evals new_evaluation_id record, true)

/-- The success update of `process_evaluation_background` (`main.py` lines
247-251): `dict.update` merges, so only `status` and `results` change. -/
def applyCompleted (r : EvalRecord) (res : FinalResult) : EvalRecord :=
  { r with status := "completed", results := some res }

/-- The failure update of `process_evaluation_background` (`main.py` lines
257-261): only `status` and `error` change; `results` keeps its old value. -/
def applyError (r : EvalRecord) (msg : String) : EvalRecord :=
  { r with status := "error", error := some msg }

/-- The state of one evaluation's lifecycle: its stored record (if any) and
whether the dispatched background task is still pending. -/
structure EvalSys where
  record : Option EvalRecord
  taskPending : Bool
deriving DecidableEq, Repr

/-- The two things the single background task can do when it runs
(`process_evaluation_background`, `main.py` lines 228-261): finish the
evaluation and write the completed update, or catch the evaluation's
exception and write the error update. Either way the one pending task is
consumed, so no second write can follow. -/
inductive EvalStep : EvalSys → EvalSys → Prop
  | complete (r : EvalRecord) (res : FinalResult) :
      EvalStep ⟨some r, true⟩ ⟨some (applyCompleted r res), false⟩
  | fail (r : EvalRecord) (msg : String) :
      EvalStep ⟨some r, true⟩ ⟨some (applyError r msg), false⟩

/-- The states an evaluation can be in after `submit_interview` stored the
record `r0` and queued the background task. -/
inductive EvalReachable (r0 : EvalRecord) : EvalSys → Prop
  | init : EvalReachable r0 ⟨some r0, true⟩
  | step {s s' : EvalSys} : EvalReachable r0 s → EvalStep s s' → EvalReachable r0 s'

/- ## graph2.py: the streaming audio pipeline -/

/-- One message of the synthesis websocket as `receive_audio_stream` reads it
(`graph2.py` lines 130-140): an optional base64 `audio` payload and the
`isFinal` flag. -/
structure SynthMsg where
  audio : Option String
  isFinal : Bool
deriving DecidableEq, Repr

/-- Python truthiness of `data.get("audio")`: a payload is present iff the
key holds a non-empty string. -/
def audioPayload (m : SynthMsg) : Option String :=
  match m.audio with
  | some s => if s = "" then none else some s
  | none => none

/-- `AudioStreamer.__init__` (`graph2.py` line 35) builds `queue.Queue()`
with no `maxsize` argument; Python's default is `0`, and a `Queue` blocks
producers only when `0 < maxsize`. -/
def audio_queue_maxsize : Nat := 0

/-- A state of the receive/playback pipeline: the messages the receive loop
has already processed, those still to arrive, the FIFO playback queue (front
= next to play), the chunks already played in order, and whether the receive
loop has hit the final message and stopped. `α` is the type of decoded audio
chunks. -/
structure StreamState (α : Type) where
  consumed : List SynthMsg
  pending : List SynthMsg
  queue : List α
  played : List α
  recvDone : Bool

/-- Interleaved small steps of `receive_audio_stream` (the producer,
`graph2.py` lines 127-145) and `AudioStreamer._audio_player` (the consumer,
lines 47-67), with `decode` standing for `base64.b64decode`. The producer
takes the next message: a truthy audio payload is decoded and enqueued at the
back; otherwise a final flag stops the loop; otherwise the message is
skipped. The consumer pops the front chunk and finishes playing it before the
next pop (`pygame.mixer.music.get_busy()` wait), so played chunks never
overlap and `played` grows strictly in queue order. -/
inductive StreamStep {α : Type} (decode : String → α) :
    StreamState α → StreamState α → Prop
  | recvAudio (c rest : List SynthMsg) (q pl : List α) (m : SynthMsg) (a : String)
      (h : audioPayload m = some a) :
      StreamStep decode ⟨c, m :: rest, q, pl, false⟩
        ⟨c ++ [m], rest, q ++ [decode a], pl, false⟩
  | recvFinal (c rest : List SynthMsg) (q pl : List α) (m : SynthMsg)
      (h : audioPayload m = none) (hf : m.isFinal = true) :
      StreamStep decode ⟨c, m :: rest, q, pl, false⟩ ⟨c ++ [m], rest, q, pl, true⟩
  | recvSkip (c rest : List SynthMsg) (q pl : List α) (m : SynthMsg)
      (h : audioPayload m = none) (hf : m.isFinal = false) :
      StreamStep decode ⟨c, m :: rest, q, pl, false⟩ ⟨c ++ [m], rest, q, pl, false⟩
  | play (c p : List SynthMsg) (a : α) (q pl : List α) (d : Bool) :
      StreamStep decode ⟨c, p, a :: q, pl, d⟩ ⟨c, p, q, pl ++ [a], d⟩

/-- The states reachable from the start of a websocket session that will
deliver `msgs`, under any interleaving of the two tasks. -/
inductive StreamReachable {α : Type} (decode : String → α) (msgs : List SynthMsg) :
    StreamState α → Prop
  | init : StreamReachable decode msgs ⟨[], msgs, [], [], false⟩
  | step {s s' : StreamState α} :
      StreamReachable decode msgs s → StreamStep decode s s' →
      StreamReachable decode msgs s'

/-- The decoded payloads of the messages a finished receive loop will have
enqueued, in emission order: every truthy audio payload up to (and excluding)
the first final-flagged payload-less message. -/
def emittedChunks {α : Type} (decode : String → α) : List SynthMsg → List α
  | [] => []
  | m :: rest =>
    match audioPayload m with
    | some a => decode a :: emittedChunks decode rest
    | none => if m.isFinal then [] else emittedChunks decode rest

/-- The chunks enqueued while processing a given prefix of messages. -/
def enqueuedOf {α : Type} (decode : String → α) (consumed : List SynthMsg) : List α :=
  consumed.filterMap (fun m => (audioPayload m).map decode)

/- ## Claim-side definitions (worded after the spec, for comparison with the
code-side definitions above) -/

/-- The overall-score formula as the spec states it (§4.4 item 4 and the C4
claim): mean of per-turn scores plus the clarity modifier plus an
unconditional consistency modifier (`≥8 → +0.3`, `≤5 → −0.2`), clamped. -/
def overall_score_per_claim (scores : List ℚ) (a : Analytics) : ℚ :=
  let base := scores.sum / (scores.length : ℚ)
  let clarity_modifier : ℚ :=
    if a.communication_clarity = "Excellent" then 1 / 2
    else if a.communication_clarity = "Good" then 1 / 5
    else if a.communication_clarity = "Needs Improvement" then -(3 / 10)
    else 0
  let consistency_modifier : ℚ :=
    match a.consistency_score with
    | some c => if 8 ≤ c then 3 / 10 else if c ≤ 5 then -(1 / 5) else 0
    | none => 0
  pyMax 0 (pyMin 10 (base + clarity_modifier + consistency_modifier))

/-- The overall-score formula as amended: the consistency modifier applies
only when the consistency score is present and non-zero (Python truthiness). -/
def overall_score_per_amended_claim (scores : List ℚ) (a : Analytics) : ℚ :=
  let base := scores.sum / (scores.length : ℚ)
  let clarity_modifier : ℚ :=
    if a.communication_clarity = "Excellent" then 1 / 2
    else if a.communication_clarity = "Good" then 1 / 5
    else if a.communication_clarity = "Needs Improvement" then -(3 / 10)
    else 0
  let consistency_modifier : ℚ :=
    match a.consistency_score with
    | some c =>
      if c ≠ 0 ∧ 8 ≤ c then 3 / 10
      else if c ≠ 0 ∧ c ≤ 5 then -(1 / 5)
      else 0
    | none => 0
  pyMax 0 (pyMin 10 (base + clarity_modifier + consistency_modifier))

/-- What one line contributes to the final `strengths`, mirroring the `elif`
dispatch of the line loop: `some items` exactly when the stripped line is a
`STRENGTHS:` line whose payload is non-blank and not `"None"`. -/
def strengthsLineItems (rawLine : String) : Option (List String) :=
  let line := pyStrip rawLine
  if pyStartsWith line "SCORE:" then none
  else if pyStartsWith line "FEEDBACK:" then none
  else if pyStartsWith line "STRENGTHS:" then
    let t := pyStrip (afterFirstColon line)
    if t ≠ "" ∧ t ≠ "None" then some (pipeItems t) else none
  else none

/-- What one line contributes to the final `improvements` (the
`IMPROVEMENTS:` branch of the same `elif` dispatch). -/
def improvementsLineItems (rawLine : String) : Option (List String) :=
  let line := pyStrip rawLine
  if pyStartsWith line "SCORE:" then none
  else if pyStartsWith line "FEEDBACK:" then none
  else if pyStartsWith line "STRENGTHS:" then none
  else if pyStartsWith line "IMPROVEMENTS:" then
    let t := pyStrip (afterFirstColon line)
    if t ≠ "" ∧ t ≠ "None" then some (pipeItems t) else none
  else none

/-- The last line of the list that yields `some`, if any (later lines
overwrite earlier ones). -/
def lastSome {α : Type} (f : String → Option α) : List String → Option α
  | [] => none
  | l :: ls =>
    match lastSome f ls with
    | some v => some v
    | none => f l

/-- The amended C9 claim's reading of a response: the (uncapped, in-order)
pipe-separated non-blank items of the last applicable `STRENGTHS:` line, or
`[]` when there is none. -/
def strengths_per_claim (response : String) : List String :=
  (lastSome strengthsLineItems (pySplitChar '\n' (pyStrip response))).getD []

/-- The amended C9 claim's reading of a response for `improvements`. -/
def improvements_per_claim (response : String) : List String :=
  (lastSome improvementsLineItems (pySplitChar '\n' (pyStrip response))).getD []

/- ## Concrete fixtures for counterexamples and witnesses -/

/-- An analytics record with `"Fair"` clarity and consistency score 0 (the
consistency value `_analyze_consistency` returns for a response of `"0"`). -/
def zeroConsistencyAnalytics : Analytics :=
  { total_duration := "1 minutes 0 seconds"
    average_response_time := 60
    speaking_pace := "Normal"
    technical_depth := "Low"
    communication_clarity := "Fair"
    consistency_score := some 0 }

/-- The analytics record of the spec's clamping test: `"Excellent"` clarity
and consistency 9. -/
def tripleTenAnalytics : Analytics :=
  { total_duration := "3 minutes 0 seconds"
    average_response_time := 60
    speaking_pace := "Normal"
    technical_depth := "High"
    communication_clarity := "Excellent"
    consistency_score := some 9 }

/-- A synthesis message carrying payload `"A"`. -/
def msgA : SynthMsg := { audio := some "A", isFinal := false }

/-- A synthesis message carrying payload `"B"`. -/
def msgB : SynthMsg := { audio := some "B", isFinal := false }

/-- A synthesis message carrying payload `"C"`. -/
def msgC : SynthMsg := { audio := some "C", isFinal := false }

/-- The terminating final-flag message. -/
def msgFin : SynthMsg := { audio := none, isFinal := true }

/-- The spec's streaming-ordering scenario: chunks A, B, C, then final. -/
def demoMsgs : List SynthMsg := [msgA, msgB, msgC, msgFin]

/-- The state of the demo scenario after everything was received and played. -/
def demoFinal : StreamState String :=
  { consumed := demoMsgs
    pending := []
    queue := []
    played := ["A", "B", "C"]
    recvDone := true }

/- ## Theorems -/

/-- `max(0, min(10, v))` always lands in `[0, 10]`. -/
lemma pyClamp_bounds (v : ℚ) : 0 ≤ pyMax 0 (pyMin 10 v) ∧ pyMax 0 (pyMin 10 v) ≤ 10 := by
  unfold pyMax pyMin
  split_ifs <;> constructor <;> linarith

/-- One line of the parse loop keeps the score inside `[0, 10]`. -/
lemma procLine_score_bounds (st : QuestionAnalysis) (l : String)
    (h : 0 ≤ st.score ∧ st.score ≤ 10) :
    0 ≤ (procLine st l).score ∧ (procLine st l).score ≤ 10 := by
  simp only [procLine]
  split_ifs
  case pos =>
    cases parsePyFloat (afterFirstColon (pyStrip l)) with
    | none => exact h
    | some v => exact pyClamp_bounds v
  all_goals exact h

/-- The whole parse loop keeps the score inside `[0, 10]`. -/
lemma foldl_procLine_score_bounds (lines : List String) (st : QuestionAnalysis)
    (h : 0 ≤ st.score ∧ st.score ≤ 10) :
    0 ≤ (lines.foldl procLine st).score ∧ (lines.foldl procLine st).score ≤ 10 := by
  induction lines generalizing st with
  | nil => exact h
  | cons l ls ih => exact ih _ (procLine_score_bounds st l h)

/-- C5: for every text response of the per-turn scoring backend (and for a
backend failure), the parsed `QuestionAnalysis.score` lies in `[0, 10]`; an
out-of-range number on the `SCORE:` line is clamped (`"SCORE: 15"` gives 10,
`"SCORE: -3"` gives 0), and an unparseable or absent `SCORE:` line leaves the
default 5.0. -/
theorem question_score_always_clamped :
    (∀ (qid : Int) (resp : Option String),
        0 ≤ (evaluate_single_answer qid resp).score ∧
          (evaluate_single_answer qid resp).score ≤ 10) ∧
      (evaluate_single_answer 1 (some "SCORE: 15")).score = 10 ∧
      (evaluate_single_answer 1 (some "SCORE: -3")).score = 0 ∧
      (evaluate_single_answer 1 (some "SCORE: abc")).score = 5 ∧
      (evaluate_single_answer 1 (some "FEEDBACK: ok but no score line")).score = 5 := by
  refine ⟨?_, by decide, by decide, by decide, by decide⟩
  intro qid resp
  cases resp with
  | none => exact ⟨by norm_num [evaluate_single_answer, degradedAnalysis],
      by norm_num [evaluate_single_answer, degradedAnalysis]⟩
  | some r =>
    exact foldl_procLine_score_bounds _ _ ⟨by norm_num [initAnalysis], by norm_num [initAnalysis]⟩

/-- One line of the parse loop rewrites `strengths` exactly when
`strengthsLineItems` yields a value for the line. -/
lemma procLine_strengths_eq (st : QuestionAnalysis) (l : String) :
    (procLine st l).strengths = (strengthsLineItems l).getD st.strengths := by
  simp only [procLine, strengthsLineItems]
  split_ifs <;>
    first
      | rfl
      | (cases parsePyFloat (afterFirstColon (pyStrip l)) <;> rfl)

/-- One line of the parse loop rewrites `improvements` exactly when
`improvementsLineItems` yields a value for the line. -/
lemma procLine_improvements_eq (st : QuestionAnalysis) (l : String) :
    (procLine st l).improvements = (improvementsLineItems l).getD st.improvements := by
  simp only [procLine, improvementsLineItems]
  split_ifs <;>
    first
      | rfl
      | (cases parsePyFloat (afterFirstColon (pyStrip l)) <;> rfl)

/-- Folding the parse loop leaves, for `strengths`, the contribution of the
last applicable line (later lines overwrite earlier ones). -/
lemma foldl_lastSome_strengths (lines : List String) (st : QuestionAnalysis) :
    (lines.foldl procLine st).strengths =
      (lastSome strengthsLineItems lines).getD st.strengths := by
  induction lines generalizing st with
  | nil => rfl
  | cons l ls ih =>
    show (ls.foldl procLine (procLine st l)).strengths = _
    rw [ih]
    rcases h : lastSome strengthsLineItems ls with _ | v
    · simp only [lastSome, h, Option.getD_none]
      exact procLine_strengths_eq st l
    · simp only [lastSome, h, Option.getD_some]

/-- Folding the parse loop leaves, for `improvements`, the contribution of
the last applicable line. -/
lemma foldl_lastSome_improvements (lines : List String) (st : QuestionAnalysis) :
    (lines.foldl procLine st).improvements =
      (lastSome improvementsLineItems lines).getD st.improvements := by
  induction lines generalizing st with
  | nil => rfl
  | cons l ls ih =>
    show (ls.foldl procLine (procLine st l)).improvements = _
    rw [ih]
    rcases h : lastSome improvementsLineItems ls with _ | v
    · simp only [lastSome, h, Option.getD_none]
      exact procLine_improvements_eq st l
    · simp only [lastSome, h, Option.getD_some]

/-- C9 counterexample: a `STRENGTHS:` line with four pipe-separated items
parses to four strengths — the parser enforces no cap of 3. -/
theorem strengths_cap_cex :
    (evaluate_single_answer 1 (some "STRENGTHS: a | b | c | d")).strengths
        = ["a", "b", "c", "d"] ∧
      ¬ (evaluate_single_answer 1 (some "STRENGTHS: a | b | c | d")).strengths.length ≤ 3 := by
  constructor
  · decide
  · decide

/-- C9 as amended: for every backend response, the parsed `strengths` and
`improvements` are exactly the non-blank pipe-separated items of the last
applicable `STRENGTHS:` / `IMPROVEMENTS:` line, in their original order and
without any cap at 3 (the prompt asks for at most 3, the parser keeps all). -/
theorem strengths_improvements_uncapped :
    ∀ (qid : Int) (response : String),
      (evaluate_single_answer qid (some response)).strengths = strengths_per_claim response ∧
        (evaluate_single_answer qid (some response)).improvements =
          improvements_per_claim response := by
  intro qid response
  constructor
  · show ((pySplitChar '\n' (pyStrip response)).foldl procLine (initAnalysis qid)).strengths = _
    rw [foldl_lastSome_strengths]
    rfl
  · show ((pySplitChar '\n' (pyStrip response)).foldl procLine (initAnalysis qid)).improvements = _
    rw [foldl_lastSome_improvements]
    rfl

/-- C4 counterexample: individual scores `[5]` with `"Fair"` clarity and a
consistency score of `0`. The claim's formula applies the `≤5 → −0.2`
modifier and yields `4.8`; the code's truthiness guard
(`if ... and analytics.consistency_score:`) treats `0.0` as absent and yields
`5`. -/
theorem overall_score_zero_consistency_cex :
    calculate_overall_score [5] zeroConsistencyAnalytics ≠
      overall_score_per_claim [5] zeroConsistencyAnalytics := by
  have h1 : calculate_overall_score [5] zeroConsistencyAnalytics = 5 := by
    simp [calculate_overall_score, mean, zeroConsistencyAnalytics, pyMax, pyMin]
    norm_num
  have h2 : overall_score_per_claim [5] zeroConsistencyAnalytics = 24 / 5 := by
    simp [overall_score_per_claim, zeroConsistencyAnalytics, pyMax, pyMin]
    norm_num
  rw [h1, h2]
  norm_num

/-- C4 as amended: for every non-empty score list and analytics record, the
overall score is the mean plus the clarity modifier plus the consistency
modifier — the latter applying only when the consistency score is present
and non-zero — clamped to `[0, 10]`; in particular scores `[10, 10, 10]`
with consistency 9 and `"Excellent"` clarity yield 10, not 10.8. -/
theorem overall_score_formula_amended :
    (∀ (scores : List ℚ) (a : Analytics), scores ≠ [] →
        calculate_overall_score scores a = overall_score_per_amended_claim scores a) ∧
      calculate_overall_score [10, 10, 10] tripleTenAnalytics = 10 := by
  constructor
  · intro scores a h
    have hbase : mean scores = some (scores.sum / (scores.length : ℚ)) := by
      simp [mean, h]
    simp only [calculate_overall_score, overall_score_per_amended_claim, hbase]
    rcases hc : a.consistency_score with _ | c
    · simp only [hc]
      congr 1
      congr 1
      ring
    · simp only [hc]
      have hm : (if c = 0 then (0:ℚ) else if 8 ≤ c then 3 / 10 else if c ≤ 5 then -(1 / 5) else 0) =
          (if c ≠ 0 ∧ 8 ≤ c then (3:ℚ) / 10 else if c ≠ 0 ∧ c ≤ 5 then -(1 / 5) else 0) := by
        by_cases h0 : c = 0
        · subst h0
          norm_num
        · by_cases h8 : (8:ℚ) ≤ c
          · simp [h0, h8]
          · by_cases h5 : c ≤ 5 <;> simp [h0, h8, h5]
      rw [hm]
      congr 1
      congr 1
      ring
  · simp [calculate_overall_score, mean, tripleTenAnalytics, pyMax, pyMin]
    norm_num

/-- The static question bank always holds exactly 5 questions. -/
lemma get_generic_questions_length (role : String) :
    (get_generic_questions role).length = 5 := by
  unfold get_generic_questions
  split_ifs <;> rfl

/-- The static question bank never holds an empty question. -/
lemma get_generic_questions_nonempty (role : String) :
    ∀ q ∈ get_generic_questions role, q ≠ "" := by
  unfold get_generic_questions
  split_ifs <;> decide

/-- The fallback tier always returns exactly 5 strings: a parsed response is
truncated to 5 and padded from the 5-question static bank, and a failed
request returns the bank itself. -/
lemma generate_fallback_questions_length (role : String) (resp : Option String) :
    (generate_fallback_questions role resp).length = 5 := by
  cases resp with
  | none => exact get_generic_questions_length role
  | some r =>
    simp only [generate_fallback_questions]
    by_cases hlt : ((parseLinewise (pyStrip r)).take 5).length < 5
    · rw [if_pos hlt, List.length_take, List.length_append, List.length_drop,
        get_generic_questions_length]
      rw [List.length_take] at hlt
      omega
    · rw [if_neg hlt, List.length_take, List.length_take]
      rw [List.length_take] at hlt
      omega

/-- C1 counterexample: with a valid role, a non-empty retrieved context and a
failing structured tier, a fallback response of bare numbering tokens
(`"1.\n2.\n3.\n4.\n5."`) parses — after `lstrip('1234567890.-) ')` — to five
EMPTY question strings, refuting the non-emptiness part of the claim. -/
theorem generate_questions_blank_questions_cex :
    generate_questions ⟨none, some "1.\n2.\n3.\n4.\n5."⟩ "SDE" ["experience"] =
      ["", "", "", "", ""] := by decide

/-- C1 as amended: whenever the structured tier fails (and also when no
context is retrieved), `generate_questions` returns exactly 5 question
strings for every role, vector-store content and fallback response — though
a string may be empty after numbering-prefix stripping; and when the
unstructured fallback request fails too, the 5 static-bank questions
returned are all non-empty. -/
theorem generate_questions_fallback_always_five :
    ∀ (role : String) (chunks : List String) (fb : Option String),
      (generate_questions ⟨none, fb⟩ role chunks).length = 5 ∧
        ∀ q ∈ generate_questions ⟨none, none⟩ role chunks, q ≠ "" := by
  intro role chunks fb
  constructor
  · simp only [generate_questions]
    split_ifs <;> exact generate_fallback_questions_length role fb
  · simp only [generate_questions]
    split_ifs <;> exact get_generic_questions_nonempty role

/-- C2: the code slip at the failing input `role = "Chef"` with a `.pdf`
upload. The handler's own `HTTPException(400, "Invalid role. ...")` is
swallowed by the blanket `except Exception` clause and surfaces as a 500
whose detail embeds the stringified 400 — the client never sees a 400. -/
theorem initialize_bad_role_gives_500 :
    initialize_interview "Chef" "resume.pdf" (Except.ok ()) =
      Except.error (500,
        "Internal server error: 400: Invalid role. Must be one of: SDE, Data Scientist, Product Manager") := by
  rfl

/-- C6: a submit whose session id is not in the session store fails with
404 "Session not found", leaves the evaluation store exactly as it was, and
queues no background task. -/
theorem submit_unknown_session_404 :
    ∀ (sessions : List (String × SessionData)) (evals : List (String × EvalRecord))
      (sid nid : String) (data : List InterviewAnswer),
      List.lookup sid sessions = none →
      submit_interview sessions evals sid nid data =
        (Except.error (404, "Session not found"), evals, false) := by
  intro sessions evals sid nid data h
  simp only [submit_interview, h]

/-- C6 witness: the empty stores and a concrete unknown id. -/
theorem submit_unknown_session_404_witness :
    submit_interview ([] : List (String × SessionData)) ([] : List (String × EvalRecord))
        "s1" "e1" ([] : List InterviewAnswer) =
      (Except.error (404, "Session not found"), ([] : List (String × EvalRecord)), false) :=
  submit_unknown_session_404 [] [] "s1" "e1" [] (by decide)

/-- C3: from the moment `submit_interview` stores the `"processing"` record
and queues the one background task, every reachable state of that
evaluation satisfies: `results` is present iff `status = "completed"`; the
state is the submitted one, the completed one or the errored one; and any
step out of the state starts from the pending `"processing"` state — so the
status is mutated exactly once, to `"completed"` (with results) or to
`"error"` (with an error string), and never a second time. -/
theorem evaluation_status_single_transition :
    ∀ (eid sid role : String) (data : List InterviewAnswer) (s : EvalSys),
      EvalReachable (initialEvalRecord eid sid role data) s →
      ((∀ r, s.record = some r → (r.results.isSome = true ↔ r.status = "completed")) ∧
        (s = ⟨some (initialEvalRecord eid sid role data), true⟩ ∨
          (∃ res, s = ⟨some (applyCompleted (initialEvalRecord eid sid role data) res), false⟩) ∨
          (∃ msg, s = ⟨some (applyError (initialEvalRecord eid sid role data) msg), false⟩)) ∧
        ∀ s', EvalStep s s' →
          s.taskPending = true ∧ ∀ r, s.record = some r → r.status = "processing") := by
  intro eid sid role data s hreach
  induction hreach with
  | init =>
    refine ⟨?_, Or.inl rfl, ?_⟩
    · intro r hr
      injection hr with h
      subst h
      simp [initialEvalRecord]
    · intro s' hstep
      refine ⟨rfl, ?_⟩
      intro r hr
      injection hr with h
      subst h
      rfl
  | step h1 h2 ih =>
    rcases ih.2.1 with hchar | ⟨res, hchar⟩ | ⟨msg, hchar⟩
    · subst hchar
      cases h2 with
      | complete r res =>
        refine ⟨?_, Or.inr (Or.inl ⟨res, rfl⟩), ?_⟩
        · intro r' hr'
          injection hr' with h
          subst h
          simp [applyCompleted, initialEvalRecord]
        · intro s'' hstep'
          cases hstep'
      | fail r msg =>
        refine ⟨?_, Or.inr (Or.inr ⟨msg, rfl⟩), ?_⟩
        · intro r' hr'
          injection hr' with h
          subst h
          simp [applyError, initialEvalRecord]
        · intro s'' hstep'
          cases hstep'
    · have hp := (ih.2.2 _ h2).1
      rw [hchar] at hp
      exact absurd hp (by simp)
    · have hp := (ih.2.2 _ h2).1
      rw [hchar] at hp
      exact absurd hp (by simp)

/-- C3 witness: the freshly submitted state of a concrete record. -/
theorem evaluation_status_single_transition_witness :
    ((∀ r, (⟨some (initialEvalRecord "e1" "s1" "SDE" []), true⟩ : EvalSys).record = some r →
        (r.results.isSome = true ↔ r.status = "completed")) ∧
      ((⟨some (initialEvalRecord "e1" "s1" "SDE" []), true⟩ : EvalSys) =
          ⟨some (initialEvalRecord "e1" "s1" "SDE" []), true⟩ ∨
        (∃ res, (⟨some (initialEvalRecord "e1" "s1" "SDE" []), true⟩ : EvalSys) =
            ⟨some (applyCompleted (initialEvalRecord "e1" "s1" "SDE" []) res), false⟩) ∨
        (∃ msg, (⟨some (initialEvalRecord "e1" "s1" "SDE" []), true⟩ : EvalSys) =
            ⟨some (applyError (initialEvalRecord "e1" "s1" "SDE" []) msg), false⟩)) ∧
      ∀ s', EvalStep ⟨some (initialEvalRecord "e1" "s1" "SDE" []), true⟩ s' →
        (⟨some (initialEvalRecord "e1" "s1" "SDE" []), true⟩ : EvalSys).taskPending = true ∧
          ∀ r, (⟨some (initialEvalRecord "e1" "s1" "SDE" []), true⟩ : EvalSys).record = some r →
            r.status = "processing") :=
  evaluation_status_single_transition "e1" "s1" "SDE" [] _ EvalReachable.init

/-- The pipeline invariant: the consumed and pending messages partition the
emission sequence; played-then-queued chunks are exactly the enqueued chunks
of the consumed prefix, in order; and once the receive loop stopped, the
consumed prefix accounts for every chunk of the whole run. -/
lemma stream_invariant {α : Type} (decode : String → α) (msgs : List SynthMsg)
    (s : StreamState α) (h : StreamReachable decode msgs s) :
    s.consumed ++ s.pending = msgs ∧
      s.played ++ s.queue = enqueuedOf decode s.consumed ∧
      (s.recvDone = true → enqueuedOf decode s.consumed = emittedChunks decode msgs) ∧
      (s.recvDone = false →
        emittedChunks decode msgs =
          enqueuedOf decode s.consumed ++ emittedChunks decode s.pending) := by
  induction h with
  | init =>
    refine ⟨rfl, rfl, ?_, ?_⟩
    · intro hfalse
      exact Bool.noConfusion hfalse
    · intro _
      rfl
  | step h1 h2 ih =>
    obtain ⟨ihc, ihq, ihdone, ihopen⟩ := ih
    cases h2 with
    | recvAudio c rest q pl m a hpay =>
      refine ⟨?_, ?_, ?_, ?_⟩
      · rw [List.append_assoc]
        exact ihc
      · show pl ++ (q ++ [decode a]) = _
        rw [← List.append_assoc, ihq]
        simp [enqueuedOf, List.filterMap_append, hpay]
      · intro hfalse
        exact Bool.noConfusion hfalse
      · intro _
        rw [ihopen rfl]
        simp [enqueuedOf, List.filterMap_append, hpay, emittedChunks]
    | recvFinal c rest q pl m hpay hf =>
      refine ⟨?_, ?_, ?_, ?_⟩
      · rw [List.append_assoc]
        exact ihc
      · rw [ihq]
        simp [enqueuedOf, List.filterMap_append, hpay]
      · intro _
        rw [ihopen rfl]
        simp [enqueuedOf, List.filterMap_append, hpay, emittedChunks, hf]
      · intro hfalse
        exact Bool.noConfusion hfalse
    | recvSkip c rest q pl m hpay hf =>
      refine ⟨?_, ?_, ?_, ?_⟩
      · rw [List.append_assoc]
        exact ihc
      · rw [ihq]
        simp [enqueuedOf, List.filterMap_append, hpay]
      · intro hfalse
        exact Bool.noConfusion hfalse
      · intro _
        rw [ihopen rfl]
        simp [enqueuedOf, List.filterMap_append, hpay, emittedChunks, hf]
    | play c p a q pl d =>
      refine ⟨ihc, ?_, ihdone, ihopen⟩
      show (pl ++ [a]) ++ q = _
      rw [List.append_assoc]
      exact ihq

/-- C7: in every reachable state of the audio pipeline, the chunks played so
far followed by the still-queued chunks are exactly the decoded payloads the
receive loop enqueued, in emission order — the queue is FIFO and the single
worker plays strictly in that order, one chunk at a time; and when the
receive loop has finished and the queue has drained, the played sequence is
exactly the run's full emission sequence (e.g. `[A, B, C]` before the final
message). -/
theorem audio_playback_fifo_order :
    ∀ (α : Type) (decode : String → α) (msgs : List SynthMsg) (s : StreamState α),
      StreamReachable decode msgs s →
      s.played ++ s.queue = enqueuedOf decode s.consumed ∧
        (s.recvDone = true → s.queue = [] → s.played = emittedChunks decode msgs) := by
  intro α decode msgs s h
  obtain ⟨-, hq, hdone, -⟩ := stream_invariant decode msgs s h
  refine ⟨hq, ?_⟩
  intro hd hqe
  have he := hdone hd
  rw [← he, ← hq, hqe, List.append_nil]

/-- C7 witness: the spec's scenario — chunks A, B, C, then final — run to
completion (receive all four messages, then play the three chunks): the
played sequence is exactly `["A", "B", "C"]`. -/
theorem audio_playback_fifo_order_witness :
    demoFinal.played ++ demoFinal.queue =
        enqueuedOf (fun a : String => a) demoFinal.consumed ∧
      (demoFinal.recvDone = true → demoFinal.queue = [] →
        demoFinal.played = emittedChunks (fun a : String => a) demoMsgs) :=
  audio_playback_fifo_order String (fun a : String => a) demoMsgs demoFinal (by
    have h1 : StreamReachable (fun a : String => a) demoMsgs
        ⟨[msgA], [msgB, msgC, msgFin], ["A"], [], false⟩ :=
      StreamReachable.step StreamReachable.init
        (StreamStep.recvAudio [] [msgB, msgC, msgFin] [] [] msgA "A" rfl)
    have h2 : StreamReachable (fun a : String => a) demoMsgs
        ⟨[msgA, msgB], [msgC, msgFin], ["A", "B"], [], false⟩ :=
      StreamReachable.step h1
        (StreamStep.recvAudio [msgA] [msgC, msgFin] ["A"] [] msgB "B" rfl)
    have h3 : StreamReachable (fun a : String => a) demoMsgs
        ⟨[msgA, msgB, msgC], [msgFin], ["A", "B", "C"], [], false⟩ :=
      StreamReachable.step h2
        (StreamStep.recvAudio [msgA, msgB] [msgFin] ["A", "B"] [] msgC "C" rfl)
    have h4 : StreamReachable (fun a : String => a) demoMsgs
        ⟨demoMsgs, [], ["A", "B", "C"], [], true⟩ :=
      StreamReachable.step h3
        (StreamStep.recvFinal [msgA, msgB, msgC] [] ["A", "B", "C"] [] msgFin rfl rfl)
    have h5 : StreamReachable (fun a : String => a) demoMsgs
        ⟨demoMsgs, [], ["B", "C"], ["A"], true⟩ :=
      StreamReachable.step h4 (StreamStep.play demoMsgs [] "A" ["B", "C"] [] true)
    have h6 : StreamReachable (fun a : String => a) demoMsgs
        ⟨demoMsgs, [], ["C"], ["A", "B"], true⟩ :=
      StreamReachable.step h5 (StreamStep.play demoMsgs [] "B" ["C"] ["A"] true)
    exact StreamReachable.step h6 (StreamStep.play demoMsgs [] "C" [] ["A", "B"] true))

/-- After `k ≤ n` producer steps on a stream of `n` audio messages with no
consumer step, `k` chunks sit in the queue. -/
lemma reachable_enqueue_k (n k : Nat) (hk : k ≤ n) :
    StreamReachable (fun a : String => a) (List.replicate n msgA)
      ⟨List.replicate k msgA, List.replicate (n - k) msgA,
        List.replicate k "A", [], false⟩ := by
  induction k with
  | zero => simpa using StreamReachable.init
  | succ k ih =>
    have hk' : k ≤ n := Nat.le_of_succ_le hk
    have hpend : List.replicate (n - k) msgA = msgA :: List.replicate (n - (k + 1)) msgA := by
      have hnk : n - k = (n - (k + 1)) + 1 := by omega
      rw [hnk, List.replicate_succ]
    have hih := ih hk'
    rw [hpend] at hih
    have hnext : StreamReachable (fun a : String => a) (List.replicate n msgA)
        ⟨List.replicate k msgA ++ [msgA], List.replicate (n - (k + 1)) msgA,
          List.replicate k "A" ++ ["A"], [], false⟩ :=
      StreamReachable.step hih
        (StreamStep.recvAudio (List.replicate k msgA) (List.replicate (n - (k + 1)) msgA)
          (List.replicate k "A") [] msgA "A" rfl)
    rw [← List.replicate_succ' k msgA, ← List.replicate_succ' k "A"] at hnext
    exact hnext

/-- A reachable state with the whole emission of `n` chunks still queued. -/
lemma queue_length_reachable (n : Nat) :
    StreamReachable (fun a : String => a) (List.replicate n msgA)
      ⟨List.replicate n msgA, [], List.replicate n "A", [], false⟩ := by
  have h := reachable_enqueue_k n n le_rfl
  simpa using h

/-- C8 counterexample: no fixed capacity bounds the audio queue — for any
claimed capacity `C`, a stream of `C + 1` audio messages reaches a state
with `C + 1` chunks queued (the producer never blocks). -/
theorem audio_queue_unbounded_cex :
    ¬ ∃ C : Nat, ∀ (msgs : List SynthMsg) (s : StreamState String),
        StreamReachable (fun a : String => a) msgs s → s.queue.length ≤ C := by
  rintro ⟨C, hC⟩
  have h := hC (List.replicate (C + 1) msgA) _ (queue_length_reachable (C + 1))
  simp at h

/-- C8 as amended: `AudioStreamer.__init__` builds `queue.Queue()` with the
default `maxsize` of 0, i.e. an unbounded queue, and for every `n` some
reachable state of the pipeline holds `n` queued chunks — the producer is
never subject to backpressure and queued memory can grow without bound. -/
theorem audio_queue_unbounded_growth :
    audio_queue_maxsize = 0 ∧
      ∀ n : Nat, ∃ s : StreamState String,
        StreamReachable (fun a : String => a) (List.replicate n msgA) s ∧
          s.queue.length = n := by
  refine ⟨rfl, ?_⟩
  intro n
  exact ⟨_, queue_length_reachable n, by simp⟩

/-- C10: evaluating an interview with an empty list of question-answer pairs
never raises: every sub-stage absorbs its own failure, and the result is the
structurally complete record with an empty `question_analysis`, overall
score 5.0 (the mean-fallback, `round(5.0, 1)`), the zeroed/"Unknown"
fallback analytics, consistency score 10.0 (the fewer-than-two-turns
shortcut) and the static overall feedback. -/
theorem empty_interview_complete_result :
    ∀ (be : EvalBackend) (role : String),
      evaluate_complete_interview be [] role =
        { overall_score := 5
          overall_feedback := overallFeedbackFallback
          question_analysis := []
          analytics := { fallbackAnalytics with consistency_score := some 10 }
          recommendations := generate_recommendations role be.recommendations } := by
  intro be role
  simp only [evaluate_complete_interview, calculate_analytics, analyze_consistency,
    generate_overall_feedback, calculate_overall_score, mean, pyRound1, roundHalfToEven]
  norm_num
